import Mathlib

/-!
Verification of the test-summary generator (`generate_summary.py`).

The Python source is shallowly embedded: Python ints become `Int`, Python
floats become `Rat` (exact arithmetic; the claims under study never depend
on binary floating-point rounding), text becomes `String`/`List Char`,
fallible code returns `Except`.  Each definition mirrors the source
function of the same name; line references point into
`.github/scripts/generate_summary.py`.
-/

/-- Python `sep.join(strs)`. -/
def pyJoin (sep : String) : List String → String
  | [] => ""
  | [l] => l
  | l :: l' :: ls => l ++ sep ++ pyJoin sep (l' :: ls)

/-- Byte size of one joined line counting one separator byte for it. -/
def lineBytes (l : String) : Nat := l.utf8ByteSize + 1

/-! ## Small Python-semantics helpers -/

/-- Python whitespace as tested by `\s` / `str.strip`: the ASCII set
(space, tab, newline, carriage return, vertical tab, form feed).
Python also accepts some non-ASCII whitespace, which no claim probes;
likewise `Char.isDigit` models `\d` on the ASCII digits. -/
def pyIsSpace (c : Char) : Bool :=
  c == ' ' || c == '\t' || c == '\n' || c == '\r' || c == '\x0b' || c == '\x0c'

/-- Python `str.strip()` with no arguments. -/
def pyStrip (s : String) : String :=
  String.mk ((s.data.dropWhile pyIsSpace).reverse.dropWhile pyIsSpace |>.reverse)

/-- Substring test, Python `needle in hay` on strings. -/
def listContainsSub (needle hay : List Char) : Bool :=
  match hay with
  | [] => needle = []
  | _ :: rest => needle.isPrefixOf hay || listContainsSub needle rest

def strContainsSub (needle hay : String) : Bool :=
  listContainsSub needle.data hay.data

/-- Value of a nonempty run of decimal digits (the regex capture `(\d+)`). -/
def digitsToNat (ds : List Char) : Nat :=
  ds.foldl (fun acc c => acc * 10 + (c.toNat - '0'.toNat)) 0

/-- Python `s.split("\n")` on the character list (structural, so that the
kernel can evaluate it; the library `String.splitOn` uses well-founded
position recursion and does not reduce). -/
def splitNL : List Char → List (List Char)
  | [] => [[]]
  | c :: rest =>
    if c = '\n' then [] :: splitNL rest
    else
      match splitNL rest with
      | h :: t => (c :: h) :: t
      | [] => [[c]]

/-- Python `content.split("\n")`. -/
def pyLines (s : String) : List String :=
  (splitNL s.data).map String.mk

/-- Remove every left-to-right non-overlapping occurrence of the pattern
`o :: os` from a character list: Python `s.replace(old, "")` for a
nonempty `old`. -/
def removeAllSub (o : Char) (os : List Char) : List Char → List Char
  | [] => []
  | c :: rest =>
    if (o :: os).isPrefixOf (c :: rest) then removeAllSub o os (rest.drop os.length)
    else c :: removeAllSub o os rest
termination_by l => l.length
decreasing_by
  · simp only [List.length_cons, List.length_drop]; omega
  · simp only [List.length_cons]; omega

/-- Python `s.replace(old, "")` (the source only replaces by the empty
string; `old` is never empty there). -/
def pyRemoveAll (old s : String) : String :=
  match old.data with
  | [] => s
  | c :: cs => String.mk (removeAllSub c cs s.data)

/-! ## Data model (`generate_summary.py` lines 40-85) -/

/-- `TestCase` dataclass (lines 40-48). -/
structure TestCase where
  name : String
  classname : String := ""
  status : String := "passed"
  duration : Rat := 0
  message : String := ""
  output : String := ""
deriving DecidableEq, Repr

/-- `TestSummary` dataclass (lines 51-64).  The derived `status` and
`pass_rate` properties are separate functions below, exactly as in the
source they are `@property` accessors, never stored fields. -/
structure TestSummary where
  title : String := "Test Results"
  passed : Int := 0
  failed : Int := 0
  skipped : Int := 0
  errors : Int := 0
  total : Int := 0
  duration : Rat := 0
  test_cases : List TestCase := []
  raw_output : String := ""
  format_detected : String := "unknown"
  timestamp : String := ""
deriving DecidableEq, Repr

/-- `TestSummary.calculate_totals` (lines 66-69). -/
def TestSummary.calculate_totals (s : TestSummary) : TestSummary :=
  if s.total = 0 then
    { s with total := s.passed + s.failed + s.skipped + s.errors }
  else s

/-- `TestSummary.status` property (lines 71-78). -/
def TestSummary.status (s : TestSummary) : String :=
  if s.failed > 0 ∨ s.errors > 0 then "failed"
  else if s.passed > 0 then "passed"
  else "unknown"

/-- `TestSummary.pass_rate` property (lines 80-85).  Python float division
is modelled by exact rational division. -/
def TestSummary.pass_rate (s : TestSummary) : Rat :=
  if s.total = 0 then 0
  else ((s.passed : Rat) / (s.total : Rat)) * 100

/-! ## TAP parser (`parse_tap`, lines 278-316)

The Python function takes a file path and reads it; the model takes the
file's text directly (the read itself is plumbing).  The plan regex
`^1\.\.(\d+)` matches within one line, so it is searched line by line.
The result regex `^(ok|not ok)\s+(\d+)\s*-?\s*(.*)$` is scanned with
`re.finditer` over the whole text: its `\s+`/`\s*` parts match newlines,
so a single match can span lines (for `"ok 1\nok 2"` the greedy `\s*`
after the digits eats the newline and `(.*)` captures the following line
as the name).  Candidate match positions are exactly line starts
(`re.MULTILINE` `^`), a failed candidate advances to the next line
start, and scanning resumes just after each match's end — which sits at
a line end.  Greedy matching is deterministic here because whitespace,
digits, `-` and the name characters are resolved by disjoint character
tests. -/

/-- Match of `^1\.\.(\d+)` against one line, returning the captured plan
count. -/
def tapPlanValue (line : String) : Option Nat :=
  match line.data with
  | '1' :: '.' :: '.' :: rest =>
    let ds := rest.takeWhile Char.isDigit
    if ds.isEmpty then none else some (digitsToNat ds)
  | _ => none

/-- `re.search(r"^1\.\.(\d+)", content, re.MULTILINE)` (lines 288-290):
the first line (earliest match position) that carries a plan. -/
def tapPlan (content : String) : Option Nat :=
  (pyLines content).findSome? tapPlanValue

/-- The part of the result pattern after the `(ok|not ok)` alternative:
`\s+(\d+)\s*-?\s*(.*)$`, where the whitespace parts may cross
newlines.  Returns (ok?, captured digits, captured name text, rest of
the input just after the match end). -/
def tapResultAfter (okFlag : Bool) :
    List Char → Option (Bool × List Char × List Char × List Char)
  | c :: rest' =>
    if pyIsSpace c then
      let r2 := rest'.dropWhile pyIsSpace
      let ds := r2.takeWhile Char.isDigit
      if ds.isEmpty then none
      else
        let r3 := (r2.dropWhile Char.isDigit).dropWhile pyIsSpace
        let r4 := match r3 with
          | '-' :: r => r.dropWhile pyIsSpace
          | _ => r3
        let nm := r4.takeWhile (fun x => x ≠ '\n')
        some (okFlag, ds, nm, r4.drop nm.length)
    else none
  | [] => none

/-- Attempt of the full result pattern at one line start. -/
def tapMatchAt (cs : List Char) :
    Option (Bool × List Char × List Char × List Char) :=
  match cs with
  | 'o' :: 'k' :: rest => tapResultAfter true rest
  | 'n' :: 'o' :: 't' :: ' ' :: 'o' :: 'k' :: rest => tapResultAfter false rest
  | _ => none

/-- Skip past the current line (to just after the next newline). -/
def dropLine (cs : List Char) : List Char :=
  match cs.dropWhile (fun c => c ≠ '\n') with
  | _ :: t => t
  | [] => []

/-- `re.finditer` of the result pattern (line 293): try each line start,
emit the match and resume after its end, else move to the next line.
The fuel argument only serves termination: every step consumes at least
one character, so any fuel above the text length lets the scan run to
the end of the text (`parse_tap` passes `length + 1`). -/
def tapScan : Nat → List Char → List (Bool × String × String)
  | 0, _ => []
  | _, [] => []
  | fuel + 1, cs =>
    match tapMatchAt cs with
    | some (okFlag, ds, nm, rest) =>
      (okFlag, String.mk ds, String.mk nm) ::
        tapScan fuel
          (match rest with
            | '\n' :: t => t
            | _ => [])
    | none => tapScan fuel (dropLine cs)

/-- Body of the result loop (lines 293-313) for one match
(ok?, digit capture, raw name capture). -/
def tapProcessResult (s : TestSummary) (r : Bool × String × String) :
    TestSummary :=
  let status0 := if r.1 then "passed" else "failed"
  let name0 := pyStrip r.2.2
  let statusName :=
    if strContainsSub "# SKIP" name0 then
      ("skipped", pyStrip (pyRemoveAll "# SKIP" name0))
    else if strContainsSub "# TODO" name0 then
      ("skipped", pyStrip (pyRemoveAll "# TODO" name0))
    else (status0, name0)
  let status := statusName.1
  let name := statusName.2
  let s1 :=
    if status = "passed" then { s with passed := s.passed + 1 }
    else if status = "failed" then { s with failed := s.failed + 1 }
    else { s with skipped := s.skipped + 1 }
  let displayName := if name = "" then "Test " ++ r.2.1 else name
  { s1 with test_cases :=
      s1.test_cases ++ [{ name := displayName, status := status }] }

/-- `parse_tap` (lines 278-316), over the file's text. -/
def parse_tap (content : String) : TestSummary :=
  let s0 : TestSummary := { format_detected := "tap", raw_output := content }
  let s1 := match tapPlan content with
    | some n => { s0 with total := (n : Int) }
    | none => s0
  let s2 := (tapScan (content.data.length + 1) content.data).foldl
    tapProcessResult s1
  s2.calculate_totals

/-! ## Decoded JSON documents

`json.load` produces nested dicts/lists/strings/numbers; `Json` is that
value space (numbers as exact rationals).  Python dicts produced by the
decoder have unique keys (later duplicates overwrite earlier ones while
decoding), so first-match lookup is faithful. -/

inductive Json where
  | null : Json
  | bool (b : Bool) : Json
  | num (q : Rat) : Json
  | str (s : String) : Json
  | arr (xs : List Json) : Json
  | obj (kvs : List (String × Json)) : Json

def jsonLookup (kvs : List (String × Json)) (k : String) : Option Json :=
  match kvs with
  | [] => none
  | (k', v) :: rest => if k' = k then some v else jsonLookup rest k

def jsonKeys : Json → List String
  | .obj kvs => kvs.map Prod.fst
  | _ => []

/-! ## JSON emission (`main`'s `--json` branch, lines 689-714)

`json.dumps(..., indent=2)` serializes exactly the dictionary built
there; the model stops at the document value, whose keys and values are
what the claim is about. -/

/-- The per-test-case dictionary (lines 702-711). -/
def jsonTestCase (tc : TestCase) : Json :=
  .obj [("name", .str tc.name), ("classname", .str tc.classname),
        ("status", .str tc.status), ("duration", .num tc.duration),
        ("message", .str tc.message)]

/-- The JSON document of `--json` mode (lines 690-712). -/
def jsonReport (s : TestSummary) : Json :=
  .obj [("title", .str s.title), ("status", .str s.status),
        ("passed", .num (s.passed : Rat)), ("failed", .num (s.failed : Rat)),
        ("skipped", .num (s.skipped : Rat)), ("errors", .num (s.errors : Rat)),
        ("total", .num (s.total : Rat)), ("duration", .num s.duration),
        ("pass_rate", .num s.pass_rate), ("format", .str s.format_detected),
        ("timestamp", .str s.timestamp),
        ("test_cases", .arr (s.test_cases.map jsonTestCase))]

/-! ## pytest JSON parser (`parse_pytest_json`, lines 147-195)

The model receives the result of `json.load` (`Except String Json`:
decode failure carries the decoder's message).  Python's dynamic
operations on the decoded value are modelled exactly, including the
exceptions they raise: `x in y`, subscription, `.get`, and `for`
iteration. -/

/-- Python exceptions that can escape the parser body. -/
inductive PyErr where
  | typeErr : PyErr
  | attrErr : PyErr
  | keyErr : PyErr
  | valueErr (msg : String) : PyErr
deriving DecidableEq, Repr

/-- Python truthiness of a decoded JSON value. -/
def jsonTruthy : Json → Bool
  | .null => false
  | .bool b => b
  | .num q => q != 0
  | .str s => s != ""
  | .arr xs => !xs.isEmpty
  | .obj kvs => !kvs.isEmpty

/-- Python `value == "lit"` for a decoded value: only the equal string
compares equal. -/
def jsonIsStr (lit : String) : Json → Bool
  | .str s => s == lit
  | _ => false

/-- Python `needle in data` for a decoded value: key test on dicts,
element test on lists, substring test on strings; `TypeError` on
numbers, booleans and `None` (not iterable). -/
def pyInStr (needle : String) : Json → Except PyErr Bool
  | .obj kvs => .ok (jsonLookup kvs needle).isSome
  | .arr xs => .ok (xs.any (jsonIsStr needle))
  | .str s => .ok (strContainsSub needle s)
  | _ => .error .typeErr

/-- Python `data[k]` for a string key: dict lookup (`KeyError` on a
miss); `TypeError` on anything else (string and list indices must be
integers). -/
def pySubscript (j : Json) (k : String) : Except PyErr Json :=
  match j with
  | .obj kvs =>
    match jsonLookup kvs k with
    | some v => .ok v
    | none => .error .keyErr
  | _ => .error .typeErr

/-- Python `x.get(k, dflt)`: only dicts have `.get`; anything else
raises `AttributeError`. -/
def pyDictGet (j : Json) (k : String) (dflt : Json) : Except PyErr Json :=
  match j with
  | .obj kvs => .ok ((jsonLookup kvs k).getD dflt)
  | _ => .error .attrErr

/-- Python `for x in v`: lists yield elements, strings yield
one-character strings, dicts yield their keys; numbers, booleans and
`None` raise `TypeError`. -/
def pyIterate : Json → Except PyErr (List Json)
  | .arr xs => .ok xs
  | .str s => .ok (s.data.map (fun c => .str (String.mk [c])))
  | .obj kvs => .ok (kvs.map (fun kv => .str kv.1))
  | _ => .error .typeErr

/-- A decoded value stored into an integer counter field.  Python stores
a non-integer value verbatim in the (untyped) field without raising
inside the parser; the typed model keeps the default there, which no
claim probes. -/
def jsonToIntD (j : Json) (dflt : Int) : Int :=
  match j with
  | .num q => if q.den = 1 then q.num else dflt
  | _ => dflt

def jsonToRatD (j : Json) (dflt : Rat) : Rat :=
  match j with
  | .num q => q
  | _ => dflt

def jsonToStrD (j : Json) (dflt : String) : String :=
  match j with
  | .str s => s
  | _ => dflt

/-- One entry of the `tests` array (lines 166-176). -/
def pytestCase (test : Json) : Except PyErr TestCase := do
  let nameV ← pyDictGet test "nodeid" (.str "unknown")
  let outcomeV ← pyDictGet test "outcome" (.str "unknown")
  let durV ← pyDictGet test "duration" (.num 0)
  let hasCall ← pyInStr "call" test
  let output ←
    if hasCall then do
      let callV ← pySubscript test "call"
      let lr ← pyDictGet callV "longrepr" .null
      if jsonTruthy lr then do
        let lr2 ← pySubscript callV "longrepr"
        pure (jsonToStrD lr2 "")
      else pure ""
    else pure ""
  pure { name := jsonToStrD nameV "unknown",
         status := jsonToStrD outcomeV "unknown",
         duration := jsonToRatD durV 0,
         output := output }

/-- The `pytest-json-report` branch, `"summary" in data` true
(lines 156-176). -/
def pytestSummaryBranch (data : Json) : Except PyErr TestSummary := do
  let sV ← pySubscript data "summary"
  let passedV ← pyDictGet sV "passed" (.num 0)
  let failedV ← pyDictGet sV "failed" (.num 0)
  let skippedV ← pyDictGet sV "skipped" (.num 0)
  let errorsV ← pyDictGet sV "error" (.num 0)
  let totalV ← pyDictGet sV "total" (.num 0)
  let durV ← pyDictGet data "duration" (.num 0)
  let testsV ← pyDictGet data "tests" (.arr [])
  let tests ← pyIterate testsV
  let cases ← tests.mapM pytestCase
  pure { format_detected := "pytest-json",
         passed := jsonToIntD passedV 0, failed := jsonToIntD failedV 0,
         skipped := jsonToIntD skippedV 0, errors := jsonToIntD errorsV 0,
         total := jsonToIntD totalV 0, duration := jsonToRatD durV 0,
         test_cases := cases }

/-- One entry of the `pytest-report-log` branch (lines 180-188),
folding the (passed, failed, skipped) counters. -/
def pytestReportEntry (counts : Int × Int × Int) (entry : Json) :
    Except PyErr (Int × Int × Int) := do
  let rt ← pyDictGet entry "$report_type" .null
  if jsonIsStr "TestReport" rt then
    let oc ← pyDictGet entry "outcome" (.str "")
    pure (if jsonIsStr "passed" oc then (counts.1 + 1, counts.2.1, counts.2.2)
      else if jsonIsStr "failed" oc then (counts.1, counts.2.1 + 1, counts.2.2)
      else if jsonIsStr "skipped" oc then (counts.1, counts.2.1, counts.2.2 + 1)
      else counts)
  else pure counts

/-- Body of `parse_pytest_json` after a successful decode
(lines 149-190). -/
def parse_pytest_body (data : Json) : Except PyErr TestSummary := do
  let hasSummary ← pyInStr "summary" data
  if hasSummary then
    pytestSummaryBranch data
  else
    match data with
    | .arr entries => do
      let counts ← entries.foldlM pytestReportEntry ((0 : Int), (0 : Int), (0 : Int))
      pure (TestSummary.calculate_totals
        { format_detected := "pytest-json",
          passed := counts.1, failed := counts.2.1, skipped := counts.2.2 })
    | _ => pure { format_detected := "pytest-json" }

/-- `parse_pytest_json` (lines 147-195) over the decode result of the
file's text; a decode failure becomes the `ValueError` of lines 192-193
(the spec's ParseError). -/
def parse_pytest_json (doc : Except String Json) : Except PyErr TestSummary :=
  match doc with
  | .error e => .error (.valueErr ("Failed to parse pytest JSON: " ++ e))
  | .ok data => parse_pytest_body data

/-! ## JUnit XML parser (`parse_junit_xml`, lines 88-144)

The model receives the parsed element tree (`xml.etree.ElementTree`
plumbing and the `ET.ParseError → ValueError` wrapper of lines 141-142
sit outside it).  `findall(".//tag")` returns the strict descendants
with the given tag in document (preorder) order; `find("tag")` returns
the first direct child with the tag. -/

inductive XElem where
  | mk (tag : String) (attrs : List (String × String)) (text : Option String)
      (children : List XElem)

def XElem.tag : XElem → String
  | .mk t _ _ _ => t

def XElem.attrs : XElem → List (String × String)
  | .mk _ a _ _ => a

def XElem.text : XElem → Option String
  | .mk _ _ tx _ => tx

def XElem.children : XElem → List XElem
  | .mk _ _ _ ch => ch

def attrLookup (ps : List (String × String)) (k : String) : Option String :=
  match ps with
  | [] => none
  | (k', v) :: rest => if k' = k then some v else attrLookup rest k

/-- Python `int(str)` on an attribute value: optional surrounding
whitespace, optional sign, decimal digits.  Python raises `ValueError`
on a malformed value; the model keeps 0 there, which no claim probes. -/
def pyIntOfString (s : String) : Int :=
  let core := (s.data.dropWhile pyIsSpace).reverse.dropWhile pyIsSpace |>.reverse
  match core with
  | '-' :: ds =>
    if !ds.isEmpty && ds.all Char.isDigit then -(digitsToNat ds : Int) else 0
  | '+' :: ds =>
    if !ds.isEmpty && ds.all Char.isDigit then (digitsToNat ds : Int) else 0
  | ds =>
    if !ds.isEmpty && ds.all Char.isDigit then (digitsToNat ds : Int) else 0

/-- Python `float(str)` on an attribute value restricted to plain
decimals `[-+]?digits[.digits]`; Python additionally accepts exponent
and special forms and raises `ValueError` on malformed values — the
model keeps 0 there, which no claim probes. -/
def pyFloatOfString (s : String) : Rat :=
  let core := (s.data.dropWhile pyIsSpace).reverse.dropWhile pyIsSpace |>.reverse
  let abs := fun (ds : List Char) =>
    let ip := ds.takeWhile Char.isDigit
    match ds.dropWhile Char.isDigit with
    | [] => if ip.isEmpty then (0 : Rat) else (digitsToNat ip : Rat)
    | '.' :: fp =>
      if fp.all Char.isDigit && (!ip.isEmpty || !fp.isEmpty) then
        (digitsToNat ip : Rat) + (digitsToNat fp : Rat) / ((10 : Rat) ^ fp.length)
      else 0
    | _ => 0
  match core with
  | '-' :: ds => -(abs ds)
  | '+' :: ds => abs ds
  | ds => abs ds

/-- `int(e.get(k, 0))`: a missing attribute gives the integer default 0. -/
def attrInt (e : XElem) (k : String) : Int :=
  match attrLookup e.attrs k with
  | none => 0
  | some v => pyIntOfString v

/-- `float(e.get(k, 0))`. -/
def attrRat (e : XElem) (k : String) : Rat :=
  match attrLookup e.attrs k with
  | none => 0
  | some v => pyFloatOfString v

/-- `findall(".//p")` over a list of sibling elements: every strict
descendant of the list's elements (the elements themselves included)
with the matching tag, in document order. -/
def findallDescList (p : String) : List XElem → List XElem
  | [] => []
  | XElem.mk t a tx ch :: rest =>
    (if t = p then [XElem.mk t a tx ch] else []) ++
      findallDescList p ch ++ findallDescList p rest

/-- `e.findall(".//p")`: matching strict descendants of `e`. -/
def XElem.findallDesc (p : String) (e : XElem) : List XElem :=
  findallDescList p e.children

/-- `e.find("p")`: first direct child with the tag. -/
def XElem.findChild (e : XElem) (p : String) : Option XElem :=
  e.children.find? (fun c => c.tag = p)

/-- The per-`testcase` construction of lines 112-137. -/
def junitCase (tc : XElem) : TestCase :=
  let base : TestCase :=
    { name := (attrLookup tc.attrs "name").getD "unknown",
      classname := (attrLookup tc.attrs "classname").getD "",
      duration := attrRat tc "time" }
  match tc.findChild "failure" with
  | some failure =>
    { base with
        status := "failed",
        message := (attrLookup failure.attrs "message").getD "",
        output := failure.text.getD "" }
  | none =>
    match tc.findChild "error" with
    | some err =>
      { base with
          status := "error",
          message := (attrLookup err.attrs "message").getD "",
          output := err.text.getD "" }
    | none =>
      match tc.findChild "skipped" with
      | some sk =>
        { base with
            status := "skipped",
            message := (attrLookup sk.attrs "message").getD "" }
      | none => { base with status := "passed" }

/-- The per-`testsuite` accumulation of lines 104-137. -/
def junitSuiteStep (acc : TestSummary) (ts : XElem) : TestSummary :=
  { acc with
    total := acc.total + attrInt ts "tests",
    failed := acc.failed + attrInt ts "failures",
    errors := acc.errors + attrInt ts "errors",
    skipped := acc.skipped + attrInt ts "skipped",
    duration := acc.duration + attrRat ts "time",
    test_cases := acc.test_cases ++
      (XElem.findallDesc "testcase" ts).map junitCase }

/-- `parse_junit_xml` (lines 88-144) over the parsed root element. -/
def parse_junit_xml (root : XElem) : TestSummary :=
  let testsuites :=
    if root.tag = "testsuites" then XElem.findallDesc "testsuite" root
    else if root.tag = "testsuite" then [root]
    else []
  let s := testsuites.foldl junitSuiteStep { format_detected := "junit" }
  { s with passed := s.total - s.failed - s.errors - s.skipped }

/-- The spec's JUnit example: a `testsuite` with `tests="3" failures="1"
skipped="1"` and two `testcase` children, one with a `failure` child and
one with a `skipped` child. -/
def junitExampleDoc : XElem :=
  .mk "testsuite" [("tests", "3"), ("failures", "1"), ("skipped", "1")] none
    [XElem.mk "testcase" [("name", "a")] none
       [XElem.mk "failure" [("message", "boom")] (some "trace") []],
     XElem.mk "testcase" [("name", "b")] none
       [XElem.mk "skipped" [] none []]]

/-- An inconsistent suite whose attributes say 1 test but 2 failures. -/
def junitNegativeDoc : XElem :=
  .mk "testsuite" [("tests", "1"), ("failures", "2")] none []

/-- A `testsuites` document with a `testsuite` nested inside another. -/
def nestedSuitesDoc : XElem :=
  .mk "testsuites" [] none
    [XElem.mk "testsuite" [("name", "outer")] none
       [XElem.mk "testsuite" [("name", "inner")] none
          [XElem.mk "testcase" [("name", "dup")] none []]]]

/-! ## npm/Jest parser (`parse_npm_test`, lines 236-275)

The `Tests:` regex has four all-optional clauses tried in the fixed
order passed, failed, skipped, total; since everything after the literal
`Tests:` is optional, the regex matches at the first `Tests:` occurrence
and each clause greedily matches at the current position if it can and
is skipped otherwise (digits, whitespace and the keyword letters are
pairwise disjoint character classes, so backtracking cannot produce any
other outcome). -/

/-- Remainder of `hay` after the first occurrence of `needle`. -/
def findAfterSub (needle : List Char) : List Char → Option (List Char)
  | [] => if needle.isEmpty then some [] else none
  | c :: rest =>
    if needle.isPrefixOf (c :: rest) then some ((c :: rest).drop needle.length)
    else findAfterSub needle rest

/-- One optional clause `,?\s*(\d+)\s+kw` (with the leading `,?\s*` only
for the clauses after the first): on success the captured number and the
rest, on failure `none` with the position unchanged. -/
def npmClause (allowSep : Bool) (kw : List Char) (cs : List Char) :
    Option Nat × List Char :=
  let cs1 :=
    if allowSep then
      (match cs with
        | ',' :: r => r
        | _ => cs).dropWhile pyIsSpace
    else cs
  let ds := cs1.takeWhile Char.isDigit
  if ds.isEmpty then (none, cs)
  else
    match cs1.dropWhile Char.isDigit with
    | c :: r0 =>
      if pyIsSpace c then
        let cs2 := (c :: r0).dropWhile pyIsSpace
        if kw.isPrefixOf cs2 then (some (digitsToNat ds), cs2.drop kw.length)
        else (none, cs)
      else (none, cs)
    | [] => (none, cs)

/-- `re.search` of the `Tests:` pattern (lines 246-253): the four
captured groups. -/
def npmTestsSearch (content : String) :
    Option (Option Nat × Option Nat × Option Nat × Option Nat) :=
  match findAfterSub "Tests:".data content.data with
  | none => none
  | some rest0 =>
    let rest1 := rest0.dropWhile pyIsSpace
    let p1 := npmClause false "passed".data rest1
    let p2 := npmClause true "failed".data p1.2
    let p3 := npmClause true "skipped".data p2.2
    let p4 := npmClause true "total".data p3.2
    some (p1.1, p2.1, p3.1, p4.1)

/-- Attempt of `\s*([0-9.]+)\s*s` at a position just past `Time:`,
returning the captured `[0-9.]+` run. -/
def npmTimeValue (cs : List Char) : Option (List Char) :=
  let cs1 := cs.dropWhile pyIsSpace
  let ds := cs1.takeWhile (fun c => c.isDigit || c == '.')
  if ds.isEmpty then none
  else
    match (cs1.dropWhile (fun c => c.isDigit || c == '.')).dropWhile pyIsSpace with
    | 's' :: _ => some ds
    | _ => none

/-- `re.search(r"Time:\s*([0-9.]+)\s*s", content)` (line 262): scan for
the first `Time:` occurrence at which the rest of the pattern matches. -/
def npmTimeSearch : List Char → Option (List Char)
  | [] => none
  | c :: rest =>
    if "Time:".data.isPrefixOf (c :: rest) then
      match npmTimeValue ((c :: rest).drop 5) with
      | some ds => some ds
      | none => npmTimeSearch rest
    else npmTimeSearch rest

/-- Attempt of `(PASS|FAIL)\s+(\S+)` at the head of `cs` for one
alternative `w`. -/
def npmWordMatch (w : List Char) (isPass : Bool) (cs : List Char) :
    Option (Bool × List Char × List Char) :=
  if w.isPrefixOf cs then
    match cs.drop w.length with
    | c :: r0 =>
      if pyIsSpace c then
        let r1 := (c :: r0).dropWhile pyIsSpace
        let nm := r1.takeWhile (fun x => !pyIsSpace x)
        if nm.isEmpty then none
        else some (isPass, nm, r1.drop nm.length)
      else none
    | [] => none
  else none

/-- Attempt of `(PASS|FAIL)\s+(\S+)` at the head of `cs` (alternatives
in the pattern's order). -/
def npmCaseMatch (cs : List Char) : Option (Bool × List Char × List Char) :=
  match npmWordMatch "PASS".data true cs with
  | some r => some r
  | none => npmWordMatch "FAIL".data false cs

/-- `re.finditer(r"(PASS|FAIL)\s+(\S+)", content)` building one
`TestCase` per match (lines 267-272): left-to-right, non-overlapping. -/
def npmCases : List Char → List TestCase
  | [] => []
  | c :: rest =>
    match h : npmCaseMatch (c :: rest) with
    | some (isPass, nm, rem) =>
      { name := String.mk nm,
        status := if isPass then "passed" else "failed" } :: npmCases rem
    | none => npmCases rest
termination_by l => l.length
decreasing_by
  · have main : ∀ (w : List Char) (ip : Bool) (cs0 : List Char) (b : Bool)
        (nm0 rem0 : List Char), w ≠ [] →
        npmWordMatch w ip cs0 = some (b, nm0, rem0) →
        rem0.length < cs0.length := by
      intro w ip cs0 b nm0 rem0 hw h0
      unfold npmWordMatch at h0
      split at h0
      · rename_i hpre
        have hwle : w.length ≤ cs0.length := by
          have := List.isPrefixOf_iff_prefix.mp hpre
          exact this.length_le
        split at h0
        · rename_i c0 r0 hdrop
          have hr0 : cs0.length - w.length = r0.length + 1 := by
            have := congrArg List.length hdrop
            simpa [List.length_drop] using this
          split at h0
          · dsimp only at h0
            split at h0
            · exact absurd h0 (by simp)
            · simp only [Option.some.injEq, Prod.mk.injEq] at h0
              obtain ⟨-, -, hrem⟩ := h0
              have h1 : ((c0 :: r0).dropWhile pyIsSpace).length ≤
                  r0.length + 1 := by
                have hsub : ((c0 :: r0).dropWhile pyIsSpace).length ≤
                    (c0 :: r0).length :=
                  List.Sublist.length_le (List.dropWhile_sublist pyIsSpace)
                simpa using hsub
              have h2 : rem0.length ≤
                  ((c0 :: r0).dropWhile pyIsSpace).length := by
                rw [← hrem]
                simp [List.length_drop]
              have hwpos : 0 < w.length := List.length_pos.mpr hw
              omega
          · exact absurd h0 (by simp)
        · exact absurd h0 (by simp)
      · exact absurd h0 (by simp)
    unfold npmCaseMatch at h
    split at h
    · rename_i r hr
      cases h
      exact main _ _ _ _ _ _ (by decide) hr
    · exact main _ _ _ _ _ _ (by decide) h
  · simp

/-- The `Tests:` assignment block (lines 255-259). -/
def npmApplyTests (s : TestSummary) (content : String) : TestSummary :=
  match npmTestsSearch content with
  | none => s
  | some (g1, g2, g3, g4) =>
    { s with
        passed := ((g1.getD 0 : Nat) : Int),
        failed := ((g2.getD 0 : Nat) : Int),
        skipped := ((g3.getD 0 : Nat) : Int),
        total := ((g4.getD 0 : Nat) : Int) }

/-- The `Time:` assignment (lines 262-264). -/
def npmApplyTime (s : TestSummary) (content : String) : TestSummary :=
  match npmTimeSearch content.data with
  | some ds => { s with duration := pyFloatOfString (String.mk ds) }
  | none => s

/-- `parse_npm_test` (lines 236-275) over the file's text. -/
def parse_npm_test (content : String) : TestSummary :=
  let s1 := npmApplyTests
    { format_detected := "npm", raw_output := content } content
  let s2 := npmApplyTime s1 content
  let s3 := { s2 with test_cases := npmCases content.data }
  s3.calculate_totals

/-- Group 4 (the `total` clause) of the `Tests:` match. -/
def npmTotalClause (content : String) : Option Nat :=
  match npmTestsSearch content with
  | none => none
  | some (_, _, _, g4) => g4

/-! ## Format detector (`detect_format`, lines 361-398)

The file system is modelled as the optional file text (`none` = the file
cannot be opened; every read failure is swallowed by the source). -/

/-- Structural split on one separator character (Python `s.split(sep)`
for a one-character separator). -/
def splitOnChar (sep : Char) : List Char → List (List Char)
  | [] => [[]]
  | c :: rest =>
    if c = sep then [] :: splitOnChar sep rest
    else
      match splitOnChar sep rest with
      | h :: t => (c :: h) :: t
      | [] => [[c]]

/-- `PurePath(p).name`: the last path component; empty and `.` segments
are dropped by pathlib's parsing. -/
def pathName (p : String) : String :=
  let parts := (splitOnChar '/' p.data).filter
    (fun seg => !seg.isEmpty && seg ≠ ['.'])
  match parts.getLast? with
  | some nm => String.mk nm
  | none => ""

/-- `PurePath(p).suffix` as CPython computes it: `name[i:]` for the last
dot index `i` when `0 < i < len(name) - 1`, else the empty string (so a
dotfile like `.xml` and a trailing-dot name have no suffix). -/
def pathSuffix (p : String) : String :=
  let nm := (pathName p).data
  let k := (nm.reverse.takeWhile (fun c => c ≠ '.')).length
  if nm.reverse.any (fun c => c = '.') then
    let i := nm.length - 1 - k
    if 0 < i ∧ i < nm.length - 1 then String.mk (nm.drop i) else ""
  else ""

/-- First `n` lines of the text, newlines kept:
`"".join(f.readline() for _ in range(n))`. -/
def takeLines : Nat → List Char → List Char
  | 0, _ => []
  | _, [] => []
  | n + 1, c :: rest =>
    if c = '\n' then c :: takeLines n rest else c :: takeLines (n + 1) rest

/-- Python `s.startswith(pre)` (structural, unlike the positional
`String.startsWith`). -/
def pyStartsWith (pre s : String) : Bool :=
  pre.data.isPrefixOf s.data

/-- The content-sniffing cascade of lines 380-398, applied to the first
10 lines of an openable file. -/
def contentSniff (content : String) : String :=
  let first_lines := String.mk (takeLines 10 content.data)
  if pyStartsWith "<?xml" (pyStrip first_lines) then "junit"
  else if pyStartsWith "\x7b" (pyStrip first_lines) then "pytest-json"
  else if strContainsSub "=== RUN" first_lines ||
      strContainsSub "--- PASS" first_lines then "go"
  else if strContainsSub "Tests:" first_lines ||
      strContainsSub "PASS " first_lines then "npm"
  else if (pyLines first_lines).any (fun l => (tapPlanValue l).isSome) then
    "tap"
  else "generic"

/-- `detect_format` (lines 361-398).  In the `.json` branch the source
sniffs the first 1000 characters for a `"summary"` key but returns
`pytest-json` on every path through that branch (including a swallowed
read failure). -/
def detect_format (path : String) (file : Option String) : String :=
  if pathSuffix path = ".xml" then "junit"
  else if pathSuffix path = ".json" then
    match file with
    | some content =>
      if strContainsSub "\"summary\"" (String.mk (content.data.take 1000)) then
        "pytest-json"
      else "pytest-json"
    | none => "pytest-json"
  else
    match file with
    | none => "generic"
    | some content => contentSniff content

/-! ## Markdown renderer (`generate_markdown`, lines 443-562)

The renderer builds a list of section lines, joins them with newlines,
and enforces the byte ceiling afterwards.  Numeric formatting of floats
(`f"{x:.Nf}"`) is modelled on exact rationals with round-half-to-even;
binary-float rounding can differ from it only in ties, and no claim
depends on the formatted digits. -/

def MAX_SUMMARY_SIZE : Nat := 1048576

def SAFE_SUMMARY_SIZE : Nat := 1000000

/-- Round to the nearest integer, ties to even (Python's float
formatting rule, on the exact rational). -/
def roundHalfEven (q : Rat) : Int :=
  let fl := q.floor
  let frac := q - fl
  if frac < 1 / 2 then fl
  else if frac > 1 / 2 then fl + 1
  else if fl % 2 = 0 then fl else fl + 1

/-- `f"{q:.prec f}"`: fixed-point decimal rendering. -/
def fmtFixed (q : Rat) (prec : Nat) : String :=
  let scaled := roundHalfEven (q * ((10 : Rat) ^ prec))
  let sign := if scaled < 0 then "-" else ""
  let a := scaled.natAbs
  if prec = 0 then sign ++ toString a
  else
    let ip := a / 10 ^ prec
    let fp := a % 10 ^ prec
    let fpStr := toString fp
    let pad := String.mk (List.replicate (prec - fpStr.length) '0')
    sign ++ toString ip ++ "." ++ pad ++ fpStr

/-- `format_duration` (lines 422-431). -/
def format_duration (seconds : Rat) : String :=
  if seconds < 1 then fmtFixed (seconds * 1000) 0 ++ "ms"
  else if seconds < 60 then fmtFixed seconds 2 ++ "s"
  else
    let minutes := (seconds / 60).floor
    let remaining := seconds - 60 * minutes
    toString minutes ++ "m " ++ fmtFixed remaining 1 ++ "s"

/-- `truncate_text` (lines 434-440). -/
def truncate_text (text : String) (max_lines : Int) : String × Bool :=
  let lines := pyLines text
  if max_lines > 0 ∧ (lines.length : Int) > max_lines then
    (pyJoin "\n" (lines.take max_lines.toNat), true)
  else (text, false)

/-- The failed-tests block entry for one test case (lines 503-511). -/
def mdFailedCaseLines (tc : TestCase) : List String :=
  let name := if tc.classname ≠ "" then tc.classname ++ "::" ++ tc.name
    else tc.name
  ["- :x: `" ++ name ++ "`"] ++
    (if tc.message ≠ "" then
      ["  - " ++ (if tc.message.length > 200 then
        String.mk (tc.message.data.take 200) ++ "..." else tc.message)]
    else [])

/-- The passed-tests block entry for one test case (lines 522-527). -/
def mdPassedCaseLine (tc : TestCase) : String :=
  let name := if tc.classname ≠ "" then tc.classname ++ "::" ++ tc.name
    else tc.name
  let durStr := if tc.duration > 0 then
    " (" ++ format_duration tc.duration ++ ")" else ""
  "- :white_check_mark: `" ++ name ++ "`" ++ durStr

/-- The `lines` list composed by `generate_markdown` before size
enforcement (lines 451-543). -/
def mdLines (summary : TestSummary) (show_details show_passed : Bool)
    (max_details_lines : Int) (include_badge : Bool) : List String :=
  ["## " ++ summary.title, ""] ++
  (if include_badge then
    ["**Status:** " ++
      (if summary.status = "passed" then ":white_check_mark: **Passed**"
       else if summary.status = "failed" then ":x: **Failed**"
       else ":grey_question: **Unknown**"), ""]
   else []) ++
  (if summary.total > 0 then
    ["| Metric | Count |", "|--------|-------|",
     "| :white_check_mark: Passed | " ++ toString summary.passed ++ " |",
     "| :x: Failed | " ++ toString summary.failed ++ " |"] ++
    (if summary.errors > 0 then
      ["| :boom: Errors | " ++ toString summary.errors ++ " |"] else []) ++
    (if summary.skipped > 0 then
      ["| :fast_forward: Skipped | " ++ toString summary.skipped ++ " |"]
     else []) ++
    ["| **Total** | **" ++ toString summary.total ++ "** |", ""] ++
    (if summary.duration > 0 then
      ["**Duration:** " ++ format_duration summary.duration, ""] else []) ++
    ["**Pass Rate:** " ++ fmtFixed summary.pass_rate 1 ++ "%", ""] ++
    (if summary.format_detected ≠ "unknown" then
      ["*Format: " ++ summary.format_detected ++ "*", ""] else [])
   else ["> :warning: No test results found", ""]) ++
  (let failed_cases := summary.test_cases.filter
    (fun tc => tc.status == "failed" || tc.status == "error")
   if !failed_cases.isEmpty && show_details then
     ["### Failed Tests", ""] ++
     (failed_cases.take 20).flatMap mdFailedCaseLines ++
     (if failed_cases.length > 20 then
       ["- ... and " ++ toString (failed_cases.length - 20) ++
         " more failures"] else []) ++
     [""]
   else []) ++
  (if show_passed then
    let passed_cases := summary.test_cases.filter
      (fun tc => tc.status == "passed")
    if !passed_cases.isEmpty then
      ["### Passed Tests", ""] ++
      (passed_cases.take 50).map mdPassedCaseLine ++
      (if passed_cases.length > 50 then
        ["- ... and " ++ toString (passed_cases.length - 50) ++
          " more passed"] else []) ++
      [""]
    else []
   else []) ++
  (if summary.raw_output ≠ "" ∧ show_details then
    ["### Output", "", "```"] ++
    [(truncate_text summary.raw_output max_details_lines).1] ++
    (if (truncate_text summary.raw_output max_details_lines).2 then
      ["\n... (truncated, showing " ++ toString max_details_lines ++ " of " ++
        toString (pyLines summary.raw_output).length ++ " lines)"] else []) ++
    ["```", ""]
   else [])

def truncWarning : String := "> :warning: Output truncated due to size limits"

/-- The size-enforcement loop of lines 550-557: keep lines from the top
while the running byte count (line + newline) stays within
`SAFE_SUMMARY_SIZE - 100`, stopping at the first overflowing line. -/
def keepLines (ls : List String) (cur : Nat) : List String :=
  match ls with
  | [] => []
  | l :: rest =>
    let lsz := l.utf8ByteSize + 1
    if cur + lsz > SAFE_SUMMARY_SIZE - 100 then []
    else l :: keepLines rest (cur + lsz)

/-- `generate_markdown` (lines 443-562). -/
def generate_markdown (summary : TestSummary)
    (show_details show_passed : Bool) (max_details_lines : Int)
    (include_badge : Bool) : String :=
  let lines := mdLines summary show_details show_passed max_details_lines
    include_badge
  let result := pyJoin "\n" lines
  if result.utf8ByteSize > SAFE_SUMMARY_SIZE then
    pyJoin "\n" (keepLines lines 0 ++ ["", truncWarning])
  else result

/-- A deliberately oversized raw output: 2,000,000 characters. -/
def bigRawOutput : String := String.mk (List.replicate 2000000 'a')

/-- A summary whose only content is the oversized raw output. -/
def bigSummary : TestSummary := { raw_output := bigRawOutput }

/-! ## CLI entry point (`main`, lines 588-739)

The argparse surface becomes `Args` (field defaults are argparse's).
File reading, stdout/stderr and the CI output sinks are plumbing; the
model records the produced JSON document or Markdown string, the error
line printed on a parse failure, and the exit code. -/

/-- `x or 0` on an optional integer flag (`None` and `0` both give 0). -/
def pyOrInt (o : Option Int) : Int := o.getD 0

def pyOrRat (o : Option Rat) : Rat := o.getD 0

structure Args where
  file : Option String := none
  format : String := "auto"
  passed : Option Int := none
  failed : Option Int := none
  skipped : Option Int := none
  errors : Option Int := none
  duration : Option Rat := none
  title : String := "Test Results"
  show_details : Bool := false
  show_passed : Bool := false
  max_lines : Int := 100
  no_badge : Bool := false
  output : Option String := none
  github_summary : Bool := false
  github_outputs : Bool := false
  json : Bool := false

structure MainResult where
  exitCode : Int
  stderrLine : Option String
  jsonDoc : Option Json
  markdown : Option String

/-- The manual-input construction of lines 675-683. -/
def manualSummary (args : Args) : TestSummary :=
  TestSummary.calculate_totals
    { passed := pyOrInt args.passed, failed := pyOrInt args.failed,
      skipped := pyOrInt args.skipped, errors := pyOrInt args.errors,
      duration := pyOrRat args.duration, format_detected := "manual" }

/-- Lines 685-739: attach title and timestamp, emit the JSON document or
the Markdown report, and derive the exit code. -/
def mainReport (args : Args) (s0 : TestSummary) (now : String) : MainResult :=
  let s := { s0 with title := args.title, timestamp := now }
  if args.json then
    { exitCode := if s.status ≠ "failed" then 0 else 1,
      stderrLine := none, jsonDoc := some (jsonReport s), markdown := none }
  else
    { exitCode := if s.status ≠ "failed" then 0 else 1,
      stderrLine := none, jsonDoc := none,
      markdown := some (generate_markdown s args.show_details
        args.show_passed args.max_lines (!args.no_badge)) }

/-- `main` (lines 664-739) over the `parse_results` outcome: in file
mode `parseOutcome` is the parse result (`error` carries the message of
the caught exception — `FileNotFoundError`, the parsers' `ValueError`,
…); `now` stands for `datetime.now().isoformat()`. -/
def mainRun (args : Args) (parseOutcome : Except String TestSummary)
    (now : String) : MainResult :=
  match args.file with
  | some _ =>
    match parseOutcome with
    | .error e =>
      { exitCode := 1, stderrLine := some ("Error parsing results: " ++ e),
        jsonDoc := none, markdown := none }
    | .ok s => mainReport args s now
  | none => mainReport args (manualSummary args) now

/-! ## Verified properties

Supporting lemmas followed by the claim theorems, their witnesses and
counterexamples. -/

/-! ## UTF-8 byte-size helpers

`len(s.encode("utf-8"))` in the source is `String.utf8ByteSize` here.
The source joins lists of lines with `"\n".join(lines)`; `pyJoin` models
Python `str.join`. -/

theorem utf8ByteSize_go_append (a b : List Char) :
    String.utf8ByteSize.go (a ++ b) =
      String.utf8ByteSize.go a + String.utf8ByteSize.go b := by
  induction a with
  | nil => simp [String.utf8ByteSize.go]
  | cons c cs ih => simp [String.utf8ByteSize.go, ih]; omega

theorem utf8ByteSize_append (a b : String) :
    (a ++ b).utf8ByteSize = a.utf8ByteSize + b.utf8ByteSize := by
  cases a with
  | mk da =>
    cases b with
    | mk db =>
      show (String.mk (da ++ db)).utf8ByteSize = _
      simp only [String.utf8ByteSize]
      exact utf8ByteSize_go_append da db

theorem utf8ByteSize_newline : ("\n" : String).utf8ByteSize = 1 := by decide

theorem pyJoin_newline_utf8 (l : String) (ls : List String) :
    (pyJoin "\n" (l :: ls)).utf8ByteSize + 1 =
      ((l :: ls).map lineBytes).sum := by
  induction ls generalizing l with
  | nil => simp [pyJoin, lineBytes]
  | cons l' ls ih =>
    show (l ++ "\n" ++ pyJoin "\n" (l' :: ls)).utf8ByteSize + 1 = _
    rw [utf8ByteSize_append, utf8ByteSize_append, utf8ByteSize_newline]
    have := ih l'
    simp only [List.map_cons, List.sum_cons, lineBytes] at this ⊢
    omega

theorem le_pyJoin_newline_of_mem {l : String} {ls : List String}
    (h : l ∈ ls) : l.utf8ByteSize ≤ (pyJoin "\n" ls).utf8ByteSize := by
  induction ls with
  | nil => cases h
  | cons x xs ih =>
    rcases List.mem_cons.mp h with rfl | hmem
    · cases xs with
      | nil => simp [pyJoin]
      | cons y ys =>
        show l.utf8ByteSize ≤ (l ++ "\n" ++ pyJoin "\n" (y :: ys)).utf8ByteSize
        rw [utf8ByteSize_append, utf8ByteSize_append]
        omega
    · cases xs with
      | nil => cases hmem
      | cons y ys =>
        show l.utf8ByteSize ≤ (x ++ "\n" ++ pyJoin "\n" (y :: ys)).utf8ByteSize
        rw [utf8ByteSize_append, utf8ByteSize_append]
        have := ih hmem
        omega

/-- The result regex can span lines: in `"ok 1\nok 2"` the greedy `\s*`
after the digit eats the newline and the second line is captured as the
first match's name, exactly as `re.finditer` behaves. -/
theorem tap_spanning_match :
    tapScan ("ok 1\nok 2".data.length + 1) "ok 1\nok 2".data =
      [(true, "1", "ok 2")] := by
  decide

/-- The spec's own TAP test vector (section 8). -/
theorem tap_spec_vector :
    (parse_tap "1..3\nok 1 - a\nnot ok 2 - b\nok 3 - c # SKIP\n").total = 3 ∧
    (parse_tap "1..3\nok 1 - a\nnot ok 2 - b\nok 3 - c # SKIP\n").passed = 1 ∧
    (parse_tap "1..3\nok 1 - a\nnot ok 2 - b\nok 3 - c # SKIP\n").failed = 1 ∧
    (parse_tap "1..3\nok 1 - a\nnot ok 2 - b\nok 3 - c # SKIP\n").skipped = 1 := by
  decide

/-! ## Facts about `calculate_totals` and the TAP fold -/

theorem tapProcessResult_total (s : TestSummary) (r : Bool × String × String) :
    (tapProcessResult s r).total = s.total := by
  unfold tapProcessResult
  dsimp only
  repeat' split
  all_goals rfl

theorem foldl_tapProcessResult_total (rs : List (Bool × String × String))
    (s : TestSummary) : (rs.foldl tapProcessResult s).total = s.total := by
  induction rs generalizing s with
  | nil => rfl
  | cons r rs ih => rw [List.foldl_cons, ih, tapProcessResult_total]

theorem calculate_totals_of_ne (s : TestSummary) (h : s.total ≠ 0) :
    s.calculate_totals = s := by
  simp [TestSummary.calculate_totals, h]

theorem calculate_totals_of_eq (s : TestSummary) (h : s.total = 0) :
    s.calculate_totals =
      { s with total := s.passed + s.failed + s.skipped + s.errors } := by
  simp [TestSummary.calculate_totals, h]

theorem calc_total_eq_sum_of_zero (s : TestSummary) (h : s.total = 0) :
    s.calculate_totals.total =
      s.calculate_totals.passed + s.calculate_totals.failed +
        s.calculate_totals.skipped + s.calculate_totals.errors := by
  rw [calculate_totals_of_eq _ h]

/-- Claim C1 counterexample: the TAP parser, fed a plan of 1 followed by
two passing result lines, produces `total = 1 > 0` with `pass_rate = 200`,
outside `[0,100]` — so the pass rate is not bounded "regardless of the
values of the counters". -/
theorem C1_counterexample :
    0 < (parse_tap "1..1\nok 1 - a\nok 2 - b").total ∧
    (parse_tap "1..1\nok 1 - a\nok 2 - b").pass_rate = 200 ∧
    ¬ (parse_tap "1..1\nok 1 - a\nok 2 - b").pass_rate ≤ 100 := by
  have hp : (parse_tap "1..1\nok 1 - a\nok 2 - b").passed = 2 := by decide
  have ht : (parse_tap "1..1\nok 1 - a\nok 2 - b").total = 1 := by decide
  have hr : (parse_tap "1..1\nok 1 - a\nok 2 - b").pass_rate = 200 := by
    unfold TestSummary.pass_rate
    rw [ht, hp]
    norm_num
  exact ⟨by rw [ht]; norm_num, hr, by rw [hr]; norm_num⟩

/-- Claim C1 (amended): `pass_rate` is exactly `0` whenever `total = 0`,
regardless of the counters; when `total > 0` it equals
`passed / total * 100`, which lies in `[0,100]` provided
`0 ≤ passed ≤ total` (parsers can break that side condition, e.g. TAP
with more result lines than the plan, or JUnit's subtraction-derived
`passed`). -/
theorem C1_pass_rate_amended (s : TestSummary) :
    (s.total = 0 → s.pass_rate = 0) ∧
    (0 < s.total → 0 ≤ s.passed → s.passed ≤ s.total →
      0 ≤ s.pass_rate ∧ s.pass_rate ≤ 100) := by
  constructor
  · intro h
    simp [TestSummary.pass_rate, h]
  · intro ht hp hpt
    have ht' : (0 : Rat) < (s.total : Rat) := by exact_mod_cast ht
    have hp' : (0 : Rat) ≤ (s.passed : Rat) := by exact_mod_cast hp
    have hne : s.total ≠ 0 := by omega
    simp only [TestSummary.pass_rate, if_neg hne]
    refine ⟨mul_nonneg (div_nonneg hp' ht'.le) (by norm_num), ?_⟩
    have h1 : (s.passed : Rat) / (s.total : Rat) ≤ 1 :=
      (div_le_one ht').mpr (by exact_mod_cast hpt)
    calc (s.passed : Rat) / (s.total : Rat) * 100
        ≤ 1 * 100 := mul_le_mul_of_nonneg_right h1 (by norm_num)
      _ = 100 := by norm_num

/-- Witness for C1 (amended) at a concrete parser output
(`passed = 2 ≤ total = 4`). -/
theorem C1_pass_rate_amended_witness :
    0 ≤ (parse_tap "1..4\nok 1\nok 2\nnot ok 3").pass_rate ∧
    (parse_tap "1..4\nok 1\nok 2\nnot ok 3").pass_rate ≤ 100 :=
  (C1_pass_rate_amended (parse_tap "1..4\nok 1\nok 2\nnot ok 3")).2
    (by decide) (by decide) (by decide)

/-- Claim C3 counterexample: for the TAP input `"1..0\nok 1 - a"` a plan
line is found (with plan count 0), yet the parser's final total is 1 —
the sum of the counters is computed even though a plan line exists, and
it overrides the plan value. -/
theorem C3_counterexample :
    tapPlan "1..0\nok 1 - a" = some 0 ∧
    (parse_tap "1..0\nok 1 - a").total = 1 := by
  decide

/-- Claim C3 (amended): a plan line sets `total` from the captured count,
and that value is authoritative whenever it is nonzero; the sum of the
counters becomes the total exactly when no plan line was found or the
plan count is 0 (since `calculate_totals` only fills a zero total, a
`1..0` plan is indistinguishable from no plan and is overridden). -/
theorem C3_tap_plan_amended (content : String) :
    (∀ n : Nat, tapPlan content = some n → n ≠ 0 →
        (parse_tap content).total = n) ∧
    ((tapPlan content = none ∨ tapPlan content = some 0) →
        (parse_tap content).total =
          (parse_tap content).passed + (parse_tap content).failed +
            (parse_tap content).skipped + (parse_tap content).errors) := by
  constructor
  · intro n hplan hn
    unfold parse_tap
    rw [hplan]
    have htot : (((tapScan (content.data.length + 1) content.data).foldl
        tapProcessResult
        { format_detected := "tap", raw_output := content,
          total := (n : Int) }).total) = (n : Int) :=
      foldl_tapProcessResult_total _ _
    rw [calculate_totals_of_ne _ (by rw [htot]; exact_mod_cast hn), htot]
  · intro hplan
    rcases hplan with h | h <;>
    · unfold parse_tap
      rw [h]
      exact calc_total_eq_sum_of_zero _
        ((foldl_tapProcessResult_total _ _).trans rfl)

/-- Claim C2 counterexample: two summaries that differ only in
`raw_output` and in a test case's `output` serialize to the same JSON
document, and neither a `"raw_output"` key nor a per-case `"output"` key
exists — those fields are silently dropped. -/
theorem C2_counterexample :
    ({ raw_output := "raw text",
       test_cases := [{ name := "t", output := "assertion detail" }] } :
        TestSummary) ≠
      ({ raw_output := "",
         test_cases := [{ name := "t", output := "" }] } : TestSummary) ∧
    jsonReport { raw_output := "raw text",
                 test_cases := [{ name := "t", output := "assertion detail" }] } =
      jsonReport { raw_output := "",
                   test_cases := [{ name := "t", output := "" }] } ∧
    "raw_output" ∉ jsonKeys (jsonReport
      { raw_output := "raw text",
        test_cases := [{ name := "t", output := "assertion detail" }] }) ∧
    "output" ∉ jsonKeys (jsonTestCase
      { name := "t", output := "assertion detail" }) := by
  refine ⟨by decide, rfl, by decide, by decide⟩

/-- Claim C2 (amended): the JSON emission serializes every `TestSummary`
field except `raw_output` — including the derived `status` and
`pass_rate` and the full per-test-case array, with `format_detected`
under the key `"format"` — and every `TestCase` field except `output`;
`raw_output` and per-case `output` are dropped. -/
theorem C2_json_emission_amended (s : TestSummary) (tc : TestCase) :
    jsonKeys (jsonReport s) =
      ["title", "status", "passed", "failed", "skipped", "errors", "total",
       "duration", "pass_rate", "format", "timestamp", "test_cases"] ∧
    jsonKeys (jsonTestCase tc) =
      ["name", "classname", "status", "duration", "message"] ∧
    jsonReport s = .obj [("title", .str s.title), ("status", .str s.status),
      ("passed", .num (s.passed : Rat)), ("failed", .num (s.failed : Rat)),
      ("skipped", .num (s.skipped : Rat)), ("errors", .num (s.errors : Rat)),
      ("total", .num (s.total : Rat)), ("duration", .num s.duration),
      ("pass_rate", .num s.pass_rate), ("format", .str s.format_detected),
      ("timestamp", .str s.timestamp),
      ("test_cases", .arr (s.test_cases.map jsonTestCase))] ∧
    jsonTestCase tc = .obj [("name", .str tc.name),
      ("classname", .str tc.classname), ("status", .str tc.status),
      ("duration", .num tc.duration), ("message", .str tc.message)] ∧
    "raw_output" ∉ jsonKeys (jsonReport s) ∧
    "output" ∉ jsonKeys (jsonTestCase tc) := by
  refine ⟨rfl, rfl, rfl, rfl, ?_, ?_⟩
  · simp only [show jsonKeys (jsonReport s) =
      ["title", "status", "passed", "failed", "skipped", "errors", "total",
       "duration", "pass_rate", "format", "timestamp", "test_cases"] from rfl]
    decide
  · simp only [show jsonKeys (jsonTestCase tc) =
      ["name", "classname", "status", "duration", "message"] from rfl]
    decide

/-- Claim C4 counterexample: the well-formed JSON document `42` does not
yield an all-zero summary — the membership test `"summary" in data`
raises an uncaught `TypeError` (not the `ParseError` reserved for decode
failures). -/
theorem C4_counterexample :
    parse_pytest_json (.ok (Json.num 42)) = .error PyErr.typeErr := rfl

theorem count_cons_self_str (a : String) (l : List String) :
    (a :: l).count a = l.count a + 1 := by
  simp [List.count_cons]

theorem count_cons_ne_str {a b : String} (h : (a == b) = false)
    (l : List String) : (a :: l).count b = l.count b := by
  simp [List.count_cons, h]

theorem pytestReportFold (os : List String) (c : Int × Int × Int) :
    List.foldlM pytestReportEntry c
        (os.map (fun o => Json.obj
          [("$report_type", .str "TestReport"), ("outcome", .str o)])) =
      .ok (c.1 + (os.count "passed" : Int), c.2.1 + (os.count "failed" : Int),
        c.2.2 + (os.count "skipped" : Int)) := by
  induction os generalizing c with
  | nil =>
    simp only [List.map_nil, List.foldlM_nil, List.count_nil, Nat.cast_zero,
      add_zero]
    rfl
  | cons o os ih =>
    simp only [List.map_cons, List.foldlM_cons]
    have hentry : pytestReportEntry c (Json.obj
        [("$report_type", Json.str "TestReport"), ("outcome", Json.str o)]) =
        .ok (if o = "passed" then (c.1 + 1, c.2.1, c.2.2)
          else if o = "failed" then (c.1, c.2.1 + 1, c.2.2)
          else if o = "skipped" then (c.1, c.2.1, c.2.2 + 1)
          else c) := by
      have hget1 : pyDictGet (Json.obj [("$report_type", Json.str "TestReport"),
          ("outcome", Json.str o)]) "$report_type" Json.null =
          .ok (Json.str "TestReport") := rfl
      have hget2 : pyDictGet (Json.obj [("$report_type", Json.str "TestReport"),
          ("outcome", Json.str o)]) "outcome" (Json.str "") =
          .ok (Json.str o) := rfl
      simp only [pytestReportEntry, hget1, hget2, bind, Except.bind, jsonIsStr,
        beq_self_eq_true, if_true, beq_iff_eq]
      rfl
    rw [hentry]
    show List.foldlM pytestReportEntry _ _ = _
    by_cases h1 : o = "passed"
    · subst h1
      have harith : c.1 + (((os.count "passed" + 1 : Nat)) : Int) =
          c.1 + 1 + ((os.count "passed" : Nat) : Int) := by push_cast; ring
      rw [if_pos rfl, ih, count_cons_self_str,
        count_cons_ne_str (show (("passed" : String) == "failed") = false from rfl),
        count_cons_ne_str (show (("passed" : String) == "skipped") = false from rfl),
        harith]
    · rw [if_neg h1]
      by_cases h2 : o = "failed"
      · subst h2
        have harith : c.2.1 + (((os.count "failed" + 1 : Nat)) : Int) =
            c.2.1 + 1 + ((os.count "failed" : Nat) : Int) := by push_cast; ring
        rw [if_pos rfl, ih, count_cons_self_str,
          count_cons_ne_str (show (("failed" : String) == "passed") = false from rfl),
          count_cons_ne_str (show (("failed" : String) == "skipped") = false from rfl),
          harith]
      · rw [if_neg h2]
        by_cases h3 : o = "skipped"
        · subst h3
          have harith : c.2.2 + (((os.count "skipped" + 1 : Nat)) : Int) =
              c.2.2 + 1 + ((os.count "skipped" : Nat) : Int) := by push_cast; ring
          rw [if_pos rfl, ih, count_cons_self_str,
            count_cons_ne_str (show (("skipped" : String) == "passed") = false from rfl),
            count_cons_ne_str (show (("skipped" : String) == "failed") = false from rfl),
            harith]
        · rw [if_neg h3, ih,
            count_cons_ne_str (beq_eq_false_iff_ne.mpr h1),
            count_cons_ne_str (beq_eq_false_iff_ne.mpr h2),
            count_cons_ne_str (beq_eq_false_iff_ne.mpr h3)]

/-- Claim C4 (amended): for well-formed JSON the pytest parser behaves as
follows — an object whose `"summary"` value is an object of integer
counters populates the summary from it; an array of `"TestReport"`
objects counts outcomes and derives the total; an object without a
`"summary"` key, or a bare string not containing `"summary"`, yields the
all-zero summary; but a bare number, boolean or `null` raises an
uncaught `TypeError` from the `"summary" in data` membership test; a
JSON decode failure raises `ValueError` (the ParseError). -/
theorem C4_pytest_json_amended :
    (∀ q : Rat, parse_pytest_json (.ok (.num q)) = .error .typeErr) ∧
    (∀ b : Bool, parse_pytest_json (.ok (.bool b)) = .error .typeErr) ∧
    (parse_pytest_json (.ok .null) = .error .typeErr) ∧
    (∀ s : String, strContainsSub "summary" s = false →
      parse_pytest_json (.ok (.str s)) =
        .ok { format_detected := "pytest-json" }) ∧
    (∀ kvs, jsonLookup kvs "summary" = none →
      parse_pytest_json (.ok (.obj kvs)) =
        .ok { format_detected := "pytest-json" }) ∧
    (∀ p f sk er t : Int,
      parse_pytest_json (.ok (.obj [("summary", .obj
          [("passed", .num (p : Rat)), ("failed", .num (f : Rat)),
           ("skipped", .num (sk : Rat)), ("error", .num (er : Rat)),
           ("total", .num (t : Rat))])])) =
        .ok { format_detected := "pytest-json", passed := p, failed := f,
              skipped := sk, errors := er, total := t }) ∧
    (∀ os : List String,
      parse_pytest_json (.ok (.arr (os.map (fun o => .obj
          [("$report_type", .str "TestReport"), ("outcome", .str o)])))) =
        .ok (TestSummary.calculate_totals
          { format_detected := "pytest-json",
            passed := (os.count "passed" : Int),
            failed := (os.count "failed" : Int),
            skipped := (os.count "skipped" : Int) })) ∧
    (∀ e, parse_pytest_json (.error e) =
      .error (.valueErr ("Failed to parse pytest JSON: " ++ e))) := by
  refine ⟨fun q => rfl, fun b => rfl, rfl, ?_, ?_, ?_, ?_, fun e => rfl⟩
  · intro s h
    simp [parse_pytest_json, parse_pytest_body, pyInStr, h, Except.bind, bind,
      pure, Except.pure]
  · intro kvs h
    simp [parse_pytest_json, parse_pytest_body, pyInStr, h, Except.bind, bind,
      pure, Except.pure]
  · intro p f sk er t
    simp [parse_pytest_json, parse_pytest_body, pyInStr, pySubscript,
      pytestSummaryBranch, pyDictGet, jsonLookup, pyIterate, jsonToIntD,
      jsonToRatD, Except.bind, bind, pure, Except.pure, Rat.den_intCast,
      Rat.num_intCast]
    rfl
  · intro os
    have hany : (os.map (fun o => Json.obj
        [("$report_type", .str "TestReport"), ("outcome", .str o)])).any
          (jsonIsStr "summary") = false := by
      simp [List.any_map, jsonIsStr, Function.comp]
    simp only [parse_pytest_json, parse_pytest_body, pyInStr, hany,
      Except.bind, bind, Bool.false_eq_true, if_false]
    rw [pytestReportFold]
    simp [pure, Except.pure]

/-- Witness for C4 (amended) at concrete documents. -/
theorem C4_pytest_json_amended_witness :
    parse_pytest_json (.ok (Json.str "no key here")) =
      .ok { format_detected := "pytest-json" } ∧
    parse_pytest_json (.ok (Json.obj [("other", Json.null)])) =
      .ok { format_detected := "pytest-json" } :=
  ⟨C4_pytest_json_amended.2.2.2.1 "no key here" (by decide),
   C4_pytest_json_amended.2.2.2.2.1 [("other", Json.null)] rfl⟩

theorem junit_example_eval :
    parse_junit_xml junitExampleDoc =
      { passed := 1, failed := 1, skipped := 1, errors := 0, total := 3,
        duration := 0,
        test_cases :=
          [{ name := "a", classname := "", status := "failed", duration := 0,
             message := "boom", output := "trace" },
           { name := "b", classname := "", status := "skipped", duration := 0,
             message := "", output := "" }],
        format_detected := "junit" } := by
  have hcases : XElem.findallDesc "testcase" junitExampleDoc =
      [XElem.mk "testcase" [("name", "a")] none
         [XElem.mk "failure" [("message", "boom")] (some "trace") []],
       XElem.mk "testcase" [("name", "b")] none
         [XElem.mk "skipped" [] none []]] := by
    simp [junitExampleDoc, XElem.findallDesc, findallDescList, XElem.children]
  show ({ (List.foldl junitSuiteStep { format_detected := "junit" }
      (if junitExampleDoc.tag = "testsuites" then
        XElem.findallDesc "testsuite" junitExampleDoc
      else if junitExampleDoc.tag = "testsuite" then [junitExampleDoc]
      else [])) with
        passed := _ } : TestSummary) = _
  rw [show (if junitExampleDoc.tag = "testsuites" then
        XElem.findallDesc "testsuite" junitExampleDoc
      else if junitExampleDoc.tag = "testsuite" then [junitExampleDoc]
      else []) = [junitExampleDoc] from rfl]
  rw [List.foldl_cons, List.foldl_nil]
  simp only [junitSuiteStep,
    show attrInt junitExampleDoc "tests" = 3 from rfl,
    show attrInt junitExampleDoc "failures" = 1 from rfl,
    show attrInt junitExampleDoc "errors" = 0 from rfl,
    show attrInt junitExampleDoc "skipped" = 1 from rfl,
    show attrRat junitExampleDoc "time" = 0 from rfl,
    hcases, add_zero, zero_add, List.map_cons, List.map_nil, List.nil_append]
  rfl

/-- Claim C6: the JUnit parser always sets
`passed = total - failed - errors - skipped` without clamping, and on the
spec's example suite (`tests="3" failures="1" skipped="1"`, one
`testcase` with a `failure` child and one with a `skipped` child) yields
`total=3, failed=1, skipped=1, passed=1` and exactly the two `TestCase`
entries with statuses `failed` and `skipped`; an inconsistent suite
(`tests="1" failures="2"`) indeed drives `passed` negative. -/
theorem C6_junit_passed_subtraction :
    (∀ root : XElem, (parse_junit_xml root).passed =
      (parse_junit_xml root).total - (parse_junit_xml root).failed -
        (parse_junit_xml root).errors - (parse_junit_xml root).skipped) ∧
    (parse_junit_xml junitExampleDoc).total = 3 ∧
    (parse_junit_xml junitExampleDoc).failed = 1 ∧
    (parse_junit_xml junitExampleDoc).skipped = 1 ∧
    (parse_junit_xml junitExampleDoc).errors = 0 ∧
    (parse_junit_xml junitExampleDoc).passed = 1 ∧
    (parse_junit_xml junitExampleDoc).test_cases.map TestCase.status =
      ["failed", "skipped"] ∧
    (parse_junit_xml junitNegativeDoc).passed = -1 := by
  refine ⟨fun root => rfl, ?_, ?_, ?_, ?_, ?_, ?_, rfl⟩ <;>
    rw [junit_example_eval] <;> rfl

theorem findallDescList_cons (p : String) (e : XElem) (rest : List XElem) :
    findallDescList p (e :: rest) =
      (if e.tag = p then [e] else []) ++ findallDescList p e.children ++
        findallDescList p rest := by
  cases e with
  | mk t a tx ch => simp [findallDescList, XElem.tag, XElem.children]

theorem sizeOf_children_lt (e : XElem) : sizeOf e.children < sizeOf e := by
  cases e with
  | mk t a tx ch => simp [XElem.children]

theorem sizeOf_list_pos (l : List XElem) : 0 < sizeOf l := by
  cases l <;> simp

theorem fdl_size_aux :
    ∀ (n : Nat) (l : List XElem), sizeOf l ≤ n →
      ∀ (p : String) (x : XElem), x ∈ findallDescList p l →
        sizeOf x < sizeOf l := by
  intro n
  induction n with
  | zero =>
    intro l hl
    exact absurd hl (by have := sizeOf_list_pos l; omega)
  | succ n ih =>
    intro l hl p x hx
    match l with
    | [] => simp [findallDescList] at hx
    | e :: rest =>
      have hse : sizeOf (e :: rest) = 1 + sizeOf e + sizeOf rest := by
        simp
      rw [findallDescList_cons] at hx
      rcases List.mem_append.mp hx with hx1 | hx2
      · rcases List.mem_append.mp hx1 with ha | hb
        · have hxe : x = e := by
            by_cases ht : e.tag = p
            · simpa [ht] using ha
            · simp [ht] at ha
          subst hxe
          omega
        · have hch : sizeOf e.children ≤ n := by
            have := sizeOf_children_lt e
            omega
          have := ih e.children hch p x hb
          have := sizeOf_children_lt e
          omega
      · have hrest : sizeOf rest ≤ n := by omega
        have := ih rest hrest p x hx2
        omega

/-- A member of `findall(".//p")` is a strict subtree: in particular no
element is its own descendant. -/
theorem mem_fdl_size {l : List XElem} {p : String} {x : XElem}
    (h : x ∈ findallDescList p l) : sizeOf x < sizeOf l :=
  fdl_size_aux (sizeOf l) l le_rfl p x h

theorem fdl_trans_aux :
    ∀ (n : Nat) (l : List XElem), sizeOf l ≤ n →
      ∀ (q : String) (x : XElem), x ∈ findallDescList q l →
        ∀ (p : String) (y : XElem), y ∈ findallDescList p x.children →
          y ∈ findallDescList p l := by
  intro n
  induction n with
  | zero =>
    intro l hl
    exact absurd hl (by have := sizeOf_list_pos l; omega)
  | succ n ih =>
    intro l hl q x hx p y hy
    match l with
    | [] => simp [findallDescList] at hx
    | e :: rest =>
      have hse : sizeOf (e :: rest) = 1 + sizeOf e + sizeOf rest := by
        simp
      rw [findallDescList_cons] at hx ⊢
      rcases List.mem_append.mp hx with hx1 | hx2
      · rcases List.mem_append.mp hx1 with ha | hb
        · have hxe : x = e := by
            by_cases ht : e.tag = q
            · simpa [ht] using ha
            · simp [ht] at ha
          subst hxe
          exact List.mem_append.mpr (.inl (List.mem_append.mpr (.inr hy)))
        · have hch : sizeOf e.children ≤ n := by
            have := sizeOf_children_lt e
            omega
          have := ih e.children hch q x hb p y hy
          exact List.mem_append.mpr (.inl (List.mem_append.mpr (.inr this)))
      · have hrest : sizeOf rest ≤ n := by omega
        exact List.mem_append.mpr (.inr (ih rest hrest q x hx2 p y hy))

/-- Descendant search composes: a matching descendant of a descendant is
a matching descendant. -/
theorem mem_fdl_trans {l : List XElem} {q : String} {x : XElem}
    {p : String} {y : XElem} (hx : x ∈ findallDescList q l)
    (hy : y ∈ findallDescList p x.children) : y ∈ findallDescList p l :=
  fdl_trans_aux (sizeOf l) l le_rfl q x hx p y hy

theorem foldl_junitSuiteStep_cases (suites : List XElem) (acc : TestSummary) :
    (suites.foldl junitSuiteStep acc).test_cases =
      acc.test_cases ++ suites.flatMap
        (fun ts => (XElem.findallDesc "testcase" ts).map junitCase) := by
  induction suites generalizing acc with
  | nil => simp
  | cons ts rest ih =>
    rw [List.foldl_cons, ih, List.flatMap_cons]
    show (junitSuiteStep acc ts).test_cases ++ _ = _
    rw [show (junitSuiteStep acc ts).test_cases =
      acc.test_cases ++ (XElem.findallDesc "testcase" ts).map junitCase from rfl]
    rw [List.append_assoc]

theorem count_le_count_flatMap (l : List XElem) (f : XElem → List TestCase)
    (x : TestCase) (b : XElem) (hb : b ∈ l) :
    (f b).count x ≤ (l.flatMap f).count x := by
  induction l with
  | nil => cases hb
  | cons h t ih =>
    rw [List.flatMap_cons, List.count_append]
    rcases List.mem_cons.mp hb with rfl | hbt
    · omega
    · have := ih hbt
      omega

theorem two_le_count_flatMap (l : List XElem) (f : XElem → List TestCase)
    (x : TestCase) (a b : XElem) (ha : a ∈ l) (hb : b ∈ l) (hab : a ≠ b)
    (hxa : x ∈ f a) (hxb : x ∈ f b) :
    2 ≤ (l.flatMap f).count x := by
  obtain ⟨s, t, rfl⟩ := List.append_of_mem ha
  have hb' : b ∈ s ∨ b ∈ t := by
    rcases List.mem_append.mp hb with h | h
    · exact .inl h
    · rcases List.mem_cons.mp h with rfl | h
      · exact absurd rfl (fun he => hab he.symm)
      · exact .inr h
  rw [List.flatMap_append, List.count_append, List.flatMap_cons,
    List.count_append]
  have hca : 0 < (f a).count x := List.count_pos_iff.mpr hxa
  rcases hb' with h | h
  · have h1 := count_le_count_flatMap s f x b h
    have h2 : 0 < (f b).count x := List.count_pos_iff.mpr hxb
    omega
  · have h1 := count_le_count_flatMap t f x b h
    have h2 : 0 < (f b).count x := List.count_pos_iff.mpr hxb
    omega

/-- Claim C10: under a `testsuites` root, a `testsuite` nested inside
another `testsuite` has each of its testcases appended to `test_cases`
at least twice — both the inner and every enclosing suite are found by
the descendant (`.//testsuite`) search, and each suite's testcases are
again collected by a descendant (`.//testcase`) search. -/
theorem C10_junit_nested_suites (root s1 s2 c : XElem)
    (hroot : root.tag = "testsuites")
    (h1 : s1 ∈ XElem.findallDesc "testsuite" root)
    (h2 : s2 ∈ XElem.findallDesc "testsuite" s1)
    (hc : c ∈ XElem.findallDesc "testcase" s2) :
    2 ≤ ((parse_junit_xml root).test_cases).count (junitCase c) := by
  have hcases : (parse_junit_xml root).test_cases =
      (XElem.findallDesc "testsuite" root).flatMap
        (fun ts => (XElem.findallDesc "testcase" ts).map junitCase) := by
    show (List.foldl junitSuiteStep { format_detected := "junit" }
      (if root.tag = "testsuites" then XElem.findallDesc "testsuite" root
       else if root.tag = "testsuite" then [root] else [])).test_cases = _
    rw [if_pos hroot, foldl_junitSuiteStep_cases]
    rfl
  rw [hcases]
  have hs2root : s2 ∈ XElem.findallDesc "testsuite" root :=
    mem_fdl_trans h1 h2
  have hne : s1 ≠ s2 := by
    intro he
    have hlt := mem_fdl_size h2
    have hch := sizeOf_children_lt s1
    rw [← he] at hlt
    omega
  exact two_le_count_flatMap _ _ _ s1 s2 h1 hs2root hne
    (List.mem_map_of_mem junitCase (mem_fdl_trans h2 hc))
    (List.mem_map_of_mem junitCase hc)

/-- Witness for C10 at the concrete nested document. -/
theorem C10_junit_nested_suites_witness :
    2 ≤ ((parse_junit_xml nestedSuitesDoc).test_cases).count
        (junitCase (XElem.mk "testcase" [("name", "dup")] none [])) := by
  apply C10_junit_nested_suites nestedSuitesDoc
    (XElem.mk "testsuite" [("name", "outer")] none
      [XElem.mk "testsuite" [("name", "inner")] none
        [XElem.mk "testcase" [("name", "dup")] none []]])
    (XElem.mk "testsuite" [("name", "inner")] none
      [XElem.mk "testcase" [("name", "dup")] none []])
    (XElem.mk "testcase" [("name", "dup")] none [])
    rfl
  · simp [nestedSuitesDoc, XElem.findallDesc, findallDescList, XElem.children,
      XElem.tag]
  · simp [XElem.findallDesc, findallDescList, XElem.children, XElem.tag]
  · simp [XElem.findallDesc, findallDescList, XElem.children, XElem.tag]

/-- Witness for C3 (amended): a nonzero plan of 2 stays authoritative
even though only one result line is present. -/
theorem C3_tap_plan_amended_witness :
    (parse_tap "1..2\nok 1").total = ((2 : Nat) : Int) :=
  (C3_tap_plan_amended "1..2\nok 1").1 2 (by decide) (by decide)

theorem npmApplyTime_counters (s : TestSummary) (c : String) :
    (npmApplyTime s c).total = s.total ∧ (npmApplyTime s c).passed = s.passed ∧
    (npmApplyTime s c).failed = s.failed ∧
    (npmApplyTime s c).skipped = s.skipped ∧
    (npmApplyTime s c).errors = s.errors := by
  unfold npmApplyTime
  split <;> exact ⟨rfl, rfl, rfl, rfl, rfl⟩

/-- Claim C9 counterexample: for the input `"Tests: 2 total"` the npm
parser reports `total = 2` while the counters sum to 0 — the `Tests:`
line's `total` clause is stored directly and `calculate_totals` never
overwrites a nonzero total, so total is not derived from the summed
counters. -/
theorem C9_counterexample :
    (parse_npm_test "Tests: 2 total").total = 2 ∧
    (parse_npm_test "Tests: 2 total").passed +
      (parse_npm_test "Tests: 2 total").failed +
      (parse_npm_test "Tests: 2 total").skipped +
      (parse_npm_test "Tests: 2 total").errors = 0 := by
  decide

/-- Claim C9 (amended): the four optional clauses of the `Tests:` line
are attempted in the fixed order passed, failed, skipped, total, each
defaulting to 0 when absent; the summary's total equals the `total`
clause whenever that clause is present and nonzero, and equals the sum
of the counters only when the clause is absent or zero.  The fixed order
shows in `"Tests: 5 failed, 3 passed"`: the passed clause is attempted
(and fails) before the failed clause, and `3 passed` after `5 failed`
matches no later clause, leaving `passed = 0`. -/
theorem C9_npm_total_amended (content : String) :
    (∀ t : Nat, npmTotalClause content = some t → t ≠ 0 →
        (parse_npm_test content).total = t) ∧
    ((npmTotalClause content).getD 0 = 0 →
        (parse_npm_test content).total =
          (parse_npm_test content).passed + (parse_npm_test content).failed +
            (parse_npm_test content).skipped +
            (parse_npm_test content).errors) ∧
    ((parse_npm_test "Tests: 5 failed, 3 passed").passed = 0 ∧
      (parse_npm_test "Tests: 5 failed, 3 passed").failed = 5) := by
  refine ⟨?_, ?_, by decide, by decide⟩
  · intro t ht htz
    unfold npmTotalClause at ht
    have h1 : (npmApplyTests
        { format_detected := "npm", raw_output := content } content).total =
        (t : Int) := by
      unfold npmApplyTests
      cases hs : npmTestsSearch content with
      | none => rw [hs] at ht; exact absurd ht (by simp)
      | some q =>
        obtain ⟨g1, g2, g3, g4⟩ := q
        rw [hs] at ht
        dsimp only at ht ⊢
        rw [ht]
        rfl
    show (TestSummary.calculate_totals _).total = _
    rw [calculate_totals_of_ne]
    · exact ((npmApplyTime_counters _ _).1).trans h1
    · show (npmApplyTime _ _).total ≠ 0
      rw [(npmApplyTime_counters _ _).1, h1]
      exact_mod_cast htz
  · intro h
    have h1 : (npmApplyTests
        { format_detected := "npm", raw_output := content } content).total =
        0 := by
      unfold npmTotalClause at h
      unfold npmApplyTests
      cases hs : npmTestsSearch content with
      | none => rfl
      | some q =>
        obtain ⟨g1, g2, g3, g4⟩ := q
        rw [hs] at h
        dsimp only at h ⊢
        exact_mod_cast h
    exact calc_total_eq_sum_of_zero _
      (((npmApplyTime_counters _ _).1).trans h1)

/-- Witness for C9 (amended): a nonzero `total` clause is authoritative,
and without one the total is the counters' sum. -/
theorem C9_npm_total_amended_witness :
    (parse_npm_test "Tests: 2 total").total = ((2 : Nat) : Int) ∧
    (parse_npm_test "Tests: 3 passed").total =
      (parse_npm_test "Tests: 3 passed").passed +
        (parse_npm_test "Tests: 3 passed").failed +
        (parse_npm_test "Tests: 3 passed").skipped +
        (parse_npm_test "Tests: 3 passed").errors :=
  ⟨(C9_npm_total_amended "Tests: 2 total").1 2 (by decide) (by decide),
   (C9_npm_total_amended "Tests: 3 passed").2.1 (by decide)⟩

/-- Claim C7 counterexample: the path `".xml"` ends in `".xml"`, but as
a dotfile its pathlib suffix is empty, so the detector falls through to
content sniffing instead of returning `junit`: npm-looking content makes
it return `npm`, and an unopenable file makes it return `generic`. -/
theorem C7_counterexample :
    detect_format ".xml" (some "Tests: 1 passed\n") = "npm" ∧
    detect_format ".xml" none = "generic" := by
  decide

/-- Claim C7 (amended): the detector returns `junit` for every path
whose pathlib suffix is `.xml` (final component ending in `.xml` with a
nonempty stem) regardless of content, `pytest-json` likewise for a
`.json` suffix; for every other path the result is exactly the content
sniff of the first 10 lines, and `generic` when the file cannot be
opened.  (A dotfile path such as `".xml"` has an empty pathlib suffix
and is sniffed, so "any path ending in .xml" is too strong.) -/
theorem C7_detect_format_amended (path : String) (file : Option String) :
    (pathSuffix path = ".xml" → detect_format path file = "junit") ∧
    (pathSuffix path = ".json" → detect_format path file = "pytest-json") ∧
    (pathSuffix path ≠ ".xml" → pathSuffix path ≠ ".json" →
      detect_format path file =
        match file with
        | none => "generic"
        | some content => contentSniff content) := by
  refine ⟨?_, ?_, ?_⟩
  · intro h
    unfold detect_format
    rw [if_pos h]
  · intro h
    unfold detect_format
    rw [if_neg (by rw [h]; decide), if_pos h]
    cases file with
    | none => rfl
    | some content => dsimp only; split <;> rfl
  · intro h1 h2
    unfold detect_format
    rw [if_neg h1, if_neg h2]

/-- Witness for C7 (amended) at concrete paths. -/
theorem C7_detect_format_amended_witness :
    detect_format "results.xml" (some "Tests: 1 passed\n") = "junit" ∧
    detect_format "report.json" (some "not json at all") = "pytest-json" ∧
    detect_format "log.txt" none = "generic" :=
  ⟨(C7_detect_format_amended "results.xml" (some "Tests: 1 passed\n")).1
      (by decide),
   (C7_detect_format_amended "report.json" (some "not json at all")).2.1
      (by decide),
   (C7_detect_format_amended "log.txt" none).2.2 (by decide) (by decide)⟩

theorem keepLines_bytes :
    ∀ (ls : List String) (cur : Nat), cur ≤ SAFE_SUMMARY_SIZE - 100 →
      cur + ((keepLines ls cur).map lineBytes).sum ≤ SAFE_SUMMARY_SIZE - 100
  | [], cur, h => by simpa [keepLines]
  | l :: rest, cur, h => by
    unfold keepLines
    dsimp only
    split
    · simpa
    · rename_i hfit
      have hih := keepLines_bytes rest (cur + (l.utf8ByteSize + 1))
        (by omega)
      simp only [List.map_cons, List.sum_cons, lineBytes]
      omega

theorem strAppend_assoc (a b c : String) : a ++ b ++ c = a ++ (b ++ c) := by
  cases a with
  | mk da =>
    cases b with
    | mk db =>
      cases c with
      | mk dc =>
        show String.mk (da ++ db ++ dc) = String.mk (da ++ (db ++ dc))
        rw [List.append_assoc]

theorem pyJoin_ends_with :
    ∀ (ls : List String) (w : String), ∃ p : String,
      pyJoin "\n" (ls ++ ["", w]) = p ++ w
  | [], w => ⟨"" ++ "\n", rfl⟩
  | l :: ls, w => by
    obtain ⟨p, hp⟩ := pyJoin_ends_with ls w
    cases hq : ls ++ [("" : String), w] with
    | nil => exact absurd hq (by simp)
    | cons a t =>
      refine ⟨l ++ "\n" ++ p, ?_⟩
      show pyJoin "\n" (l :: (ls ++ ["", w])) = l ++ "\n" ++ p ++ w
      rw [hq]
      show l ++ "\n" ++ pyJoin "\n" (a :: t) = l ++ "\n" ++ p ++ w
      rw [← hq, hp, ← strAppend_assoc]

theorem truncWarning_bytes : truncWarning.utf8ByteSize = 47 := by decide

theorem truncated_output_bytes (ls : List String) :
    (pyJoin "\n" (keepLines ls 0 ++ ["", truncWarning])).utf8ByteSize ≤
      SAFE_SUMMARY_SIZE - 52 := by
  have hk := keepLines_bytes ls 0 (by norm_num)
  cases hkl : keepLines ls 0 with
  | nil =>
    show (pyJoin "\n" ["", truncWarning]).utf8ByteSize ≤ _
    have := pyJoin_newline_utf8 "" [truncWarning]
    simp only [List.map_cons, List.map_nil, List.sum_cons, List.sum_nil,
      lineBytes, truncWarning_bytes] at this
    have hz : ("" : String).utf8ByteSize = 0 := by decide
    rw [hz] at this
    unfold SAFE_SUMMARY_SIZE
    omega
  | cons kh kt =>
    rw [hkl] at hk
    have hjoin := pyJoin_newline_utf8 kh (kt ++ ["", truncWarning])
    have heq : ((kh :: (kt ++ ["", truncWarning])).map lineBytes).sum =
        ((kh :: kt).map lineBytes).sum + 1 + 48 := by
      simp only [List.map_cons, List.map_append, List.sum_cons,
        List.sum_append, List.map_nil, List.sum_nil, lineBytes,
        truncWarning_bytes]
      have hz : ("" : String).utf8ByteSize = 0 := by decide
      rw [hz]
      omega
    have hfinal : (pyJoin "\n" (kh :: (kt ++ ["", truncWarning]))).utf8ByteSize
        + 1 = ((kh :: kt).map lineBytes).sum + 1 + 48 := hjoin.trans heq
    rw [List.cons_append]
    unfold SAFE_SUMMARY_SIZE at hk ⊢
    omega

theorem generate_markdown_size (summary : TestSummary)
    (show_details show_passed : Bool) (max_details_lines : Int)
    (include_badge : Bool) :
    (generate_markdown summary show_details show_passed max_details_lines
      include_badge).utf8ByteSize ≤ 1000000 := by
  unfold generate_markdown
  dsimp only
  split
  · have := truncated_output_bytes (mdLines summary show_details show_passed
      max_details_lines include_badge)
    unfold SAFE_SUMMARY_SIZE at this
    omega
  · rename_i hsmall
    unfold SAFE_SUMMARY_SIZE at hsmall
    omega

theorem utf8_go_replicate (n : Nat) (c : Char) :
    String.utf8ByteSize.go (List.replicate n c) = n * c.utf8Size := by
  induction n with
  | zero => simp [String.utf8ByteSize.go]
  | succ n ih =>
    simp only [List.replicate_succ, String.utf8ByteSize.go, ih]
    ring

theorem bigRawOutput_bytes : bigRawOutput.utf8ByteSize = 2000000 := by
  show String.utf8ByteSize.go (List.replicate 2000000 'a') = 2000000
  rw [utf8_go_replicate, show ('a'.utf8Size) = 1 from by decide]

theorem bigRawOutput_ne : bigRawOutput ≠ "" := by
  intro h
  have hb := bigRawOutput_bytes
  rw [h] at hb
  have hz : ("" : String).utf8ByteSize = 0 := by decide
  omega

theorem bigSummary_lines :
    mdLines bigSummary true false 0 true =
      ["## Test Results", "", "**Status:** :grey_question: **Unknown**", "",
       "> :warning: No test results found", "", "### Output", "", "```",
       bigRawOutput, "```", ""] := by
  have htr : truncate_text bigRawOutput 0 = (bigRawOutput, false) := by
    unfold truncate_text
    dsimp only
    rw [if_neg]
    intro hc
    exact absurd hc.1 (by norm_num)
  unfold mdLines
  simp only [show bigSummary.raw_output = bigRawOutput from rfl, htr,
    show bigSummary.total = 0 from rfl,
    show bigSummary.title = "Test Results" from rfl,
    show bigSummary.status = "unknown" from rfl,
    show bigSummary.test_cases = [] from rfl]
  simp [bigRawOutput_ne]

theorem bigResult_large :
    (pyJoin "\n" (mdLines bigSummary true false 0 true)).utf8ByteSize >
      SAFE_SUMMARY_SIZE := by
  have hmem : bigRawOutput ∈ mdLines bigSummary true false 0 true := by
    rw [bigSummary_lines]
    simp
  have hle := le_pyJoin_newline_of_mem hmem
  rw [bigRawOutput_bytes] at hle
  unfold SAFE_SUMMARY_SIZE
  omega

/-- Claim C5: for every summary and every combination of rendering
options the Markdown output is at most 1,000,000 UTF-8 bytes; and the
deliberately oversized input (raw output of 2,000,000 characters with
details shown) produces output ending in the fixed truncation warning
line. -/
theorem C5_markdown_size_ceiling :
    (∀ (summary : TestSummary) (show_details show_passed : Bool)
      (max_details_lines : Int) (include_badge : Bool),
        (generate_markdown summary show_details show_passed max_details_lines
          include_badge).utf8ByteSize ≤ 1000000) ∧
    (∃ p : String, generate_markdown bigSummary true false 0 true =
        p ++ truncWarning) := by
  refine ⟨generate_markdown_size, ?_⟩
  unfold generate_markdown
  dsimp only
  rw [if_pos bigResult_large]
  exact pyJoin_ends_with _ _

theorem status_title_timestamp (s : TestSummary) (t ts : String) :
    ({ s with title := t, timestamp := ts } : TestSummary).status =
      s.status := rfl

theorem mainReport_exit (args : Args) (s0 : TestSummary) (now : String) :
    (mainReport args s0 now).exitCode =
      (if s0.status = "failed" then 1 else 0) := by
  unfold mainReport
  dsimp only
  split <;>
  · show (if ({ s0 with title := args.title, timestamp := now } :
      TestSummary).status ≠ "failed" then (0 : Int) else 1) = _
    rw [status_title_timestamp]
    by_cases h : s0.status = "failed" <;> simp [h]

/-- Claim C8: the exit code is 0 exactly when the derived status is not
`failed` (in file mode on success and in manual mode alike); a parse
failure in file mode prints one error line to the error stream and
exits 1 without producing any report; and manual mode with
`--passed 10 --failed 2` yields `total = 12`, status `failed`, exit
code 1. -/
theorem C8_main_exit_codes :
    (∀ (args : Args) (f : String) (s : TestSummary) (now : String),
      args.file = some f →
        (mainRun args (.ok s) now).exitCode =
          (if s.status = "failed" then 1 else 0)) ∧
    (∀ (args : Args) (po : Except String TestSummary) (now : String),
      args.file = none →
        (mainRun args po now).exitCode =
          (if (manualSummary args).status = "failed" then 1 else 0)) ∧
    (∀ (args : Args) (f e : String) (now : String), args.file = some f →
        mainRun args (.error e) now =
          { exitCode := 1,
            stderrLine := some ("Error parsing results: " ++ e),
            jsonDoc := none, markdown := none }) ∧
    ((manualSummary { passed := some 10, failed := some 2 }).total = 12 ∧
      (manualSummary { passed := some 10, failed := some 2 }).status =
        "failed" ∧
      ∀ (po : Except String TestSummary) (now : String),
        (mainRun { passed := some 10, failed := some 2 } po now).exitCode =
          1) := by
  refine ⟨?_, ?_, ?_, by decide, by decide, ?_⟩
  · intro args f s now h
    unfold mainRun
    rw [h]
    exact mainReport_exit args s now
  · intro args po now h
    unfold mainRun
    rw [h]
    exact mainReport_exit args (manualSummary args) now
  · intro args f e now h
    unfold mainRun
    rw [h]
  · intro po now
    show (mainReport _ (manualSummary _) _).exitCode = 1
    rw [mainReport_exit]
    rw [show (manualSummary { passed := some 10, failed := some 2 }).status =
      "failed" from by decide]
    simp

/-- Witness for C8 at concrete inputs: a failing parse in file mode, and
the manual `--passed 10 --failed 2` invocation. -/
theorem C8_main_exit_codes_witness :
    mainRun { file := some "results.txt" } (.error "boom") "now" =
      { exitCode := 1,
        stderrLine := some ("Error parsing results: " ++ "boom"),
        jsonDoc := none, markdown := none } ∧
    (mainRun { passed := some 10, failed := some 2 } (.error "unused")
      "now").exitCode = 1 :=
  ⟨C8_main_exit_codes.2.2.1 { file := some "results.txt" } "results.txt"
      "boom" "now" rfl,
   C8_main_exit_codes.2.2.2.2.2 (.error "unused") "now"⟩
